import Mathlib

/-!
Verification of the `isolate` sandbox library against its design specification.

The development shallowly embeds the Rust source:

* machine integers (`u32`) become `Nat` with explicit wraparound (`% 2^32`)
  at the operations where the source performs unchecked `u32` arithmetic;
* fallible constructors returning `Result<T, Error>` become `Except Error T`;
* the injected `System` capability becomes a snapshot value `SysState`, and
  the effectful construction paths are embedded in explicit state-passing
  style, returning the final snapshot next to the result;
* `PathBuf::join` with a relative component becomes string concatenation
  with a `/` separator.

The repository contains two iterations of the sandbox core.  The flat
iteration (`lib.rs`, `Sandbox::with_system`) is embedded in namespace `Lib`;
the modular iteration (`sandbox.rs` with `config.rs` / `environment.rs`) is
embedded in namespace `Modular`.  Definitions keep the source's field and
function names.
-/

namespace Isolate

/-- Error taxonomy: the variants of `Error` used by the embedded operations
(`lib.rs` uses `NotRoot`, `Permission`, `Config`, `NotInitialized`,
`AlreadyInitialized`; `mount.rs` uses `Mount`; `dir_rule.rs` uses `DirRule`). -/
inductive Error where
  | NotRoot : Error
  | Permission : String → Error
  | Config : String → Error
  | Mount : String → Error
  | DirRule : String → Error
  | NotInitialized : Error
  | AlreadyInitialized : Error
deriving DecidableEq

/-- Snapshot of the injected `System` capability, mirroring the `MockSystem`
test double: real and effective uid/gid, whether `setegid` fails (and with
which errno text, as `setegid_errno` in the tests), and the current
file-creation mask. -/
structure SysState where
  euid : Nat
  egid : Nat
  uid : Nat
  gid : Nat
  setegidError : Option String
  umask : Nat
deriving DecidableEq

/-- Unchecked `u32` addition as performed in release builds: wraps modulo `2^32`. -/
def u32add (a b : Nat) : Nat :=
  (a + b) % 4294967296

/-- Unchecked `u32` subtraction as performed in release builds: wraps modulo `2^32`. -/
def u32sub (a b : Nat) : Nat :=
  (a + 4294967296 - b % 4294967296) % 4294967296

/-- `PathBuf::join` with a relative component (the only use in the embedded
code joins a decimal sandbox id onto a root directory). -/
def pathJoin (a b : String) : String :=
  a ++ "/" ++ b

/-- Credential resolution, embedded from `lib.rs` (`Sandbox::with_system`,
the `match (config.security.as_uid, config.security.as_gid)` block).  The
modular iteration delegates the same decision to `Config::credentials`, whose
body is absent from the source tree; its unit tests in `sandbox.rs` pin the
identical messages and outcomes, so this function also stands for it. -/
def resolveCredentials (as_uid as_gid : Option Nat) (original_uid original_gid : Nat) :
    Except Error (Nat × Nat) :=
  match as_uid, as_gid with
  | some u, some g =>
    if original_uid ≠ 0 then
      .error (.Permission "you must be root to use `as_uid` or `as_gid`")
    else
      .ok (u, g)
  | none, none => .ok (original_uid, original_gid)
  | _, _ => .error (.Config "`as_uid` and `as_gid` must be used either both or none")

/-- The effective-gid fix-up step shared by both construction iterations
(lib.rs lines 538-542, sandbox.rs lines 75-79): when the effective gid is
not 0, attempt `setegid(0)`; on failure report a `Permission` error carrying
the underlying cause, on success the snapshot's effective gid becomes 0. -/
def switchEgid (sys : SysState) : Except Error SysState :=
  if sys.egid ≠ 0 then
    match sys.setegidError with
    | some e => .error (.Permission ("cannot switch to root group: " ++ e))
    | none => .ok { sys with egid := 0 }
  else .ok sys

namespace Lib

/-- `SecurityConfig` (lib.rs).  Only the fields read by the embedded
operations are modelled; `inherit_fds` and `share_net` are never read by
`Sandbox::with_system`. -/
structure SecurityConfig where
  as_uid : Option Nat := none
  as_gid : Option Nat := none
  box_id : Option Nat := some 0
  inherit_fds : Bool := false
  share_net : Bool := false
deriving DecidableEq

/-- `EnvironmentConfig` (lib.rs), with the defaults of its `Default` impl. -/
structure EnvironmentConfig where
  box_root : String := "/var/local/lib/isolate"
  first_gid : Nat := 60000
  first_uid : Nat := 60000
  lock_root : String := "/run/isolate/locks"
  num_boxes : Nat := 1000
  restricted_init : Bool := false
deriving DecidableEq

/-- `SandboxConfig` (lib.rs).  The `behavior`, `cgroup`, `fs`, `io` and
`program` groups hold limits and flags that no embedded operation reads, so
only the `environment` and `security` groups are modelled. -/
structure SandboxConfig where
  environment : EnvironmentConfig := {}
  security : SecurityConfig := {}
deriving DecidableEq

/-- `Meta` (lib.rs): result of one run.  The fractional-second `time` and
`time_wall` fields are floating point and are not modelled; no embedded
operation reads any `Meta` field. -/
structure Meta where
  cg_mem : Nat := 0
  cg_oom_killed : Bool := false
  csw_forced : Nat := 0
  csw_voluntary : Nat := 0
  exit_code : Int := 0
  exit_signal : Int := 0
  killed : Bool := false
  max_rss : Nat := 0
  message : String := ""
  status : String := ""
deriving DecidableEq

/-- `Sandbox` (lib.rs). -/
structure Sandbox where
  box_dir : String
  box_gid : Nat
  box_id : Nat
  box_uid : Nat
  config : SandboxConfig
  initialized : Bool
  original_gid : Nat
  original_uid : Nat
deriving DecidableEq

/-- `Sandbox::with_system` (lib.rs), in state-passing form: the second
component is the system snapshot after the call (`setegid(0)` sets the
effective gid, `umask(0o022)` sets the mask). -/
def withSystemState (config : SandboxConfig) (sys : SysState) :
    Except Error Sandbox × SysState :=
  if sys.euid ≠ 0 then (.error .NotRoot, sys)
  else
    match switchEgid sys with
    | .error e => (.error e, sys)
    | .ok sys1 =>
      match resolveCredentials config.security.as_uid config.security.as_gid
          sys1.uid sys1.gid with
      | .error e => (.error e, sys1)
      | .ok (original_uid, original_gid) =>
        let sys2 := { sys1 with umask := 0o022 }
        let box_id := config.security.box_id.getD 0
        if config.environment.num_boxes ≤ box_id then
          (.error (.Config ("sandbox id out of range (allowed: 0-" ++
            toString (u32sub config.environment.num_boxes 1) ++ ")")), sys2)
        else
          (.ok {
            box_dir := pathJoin config.environment.box_root (toString box_id)
            box_gid := u32add config.environment.first_gid box_id
            box_id := box_id
            box_uid := u32add config.environment.first_uid box_id
            config := config
            initialized := false
            original_gid := original_gid
            original_uid := original_uid }, sys2)

/-- `Sandbox::with_system` (lib.rs), result component only. -/
def withSystem (config : SandboxConfig) (sys : SysState) : Except Error Sandbox :=
  (withSystemState config sys).1

/-- `Sandbox::initialize` (lib.rs).  The `AlreadyInitialized` guard is from
the source; the body behind it is `todo!()` there.  Modelled from the spec:
a successful `initialize` completes the directory/mount setup and moves the
sandbox to the `Initialized` state, so the success path returns the sandbox
with `initialized` set. -/
def init (s : Sandbox) : Except Error Sandbox :=
  if s.initialized then .error .AlreadyInitialized
  else .ok { s with initialized := true }

/-- `Sandbox::run` (lib.rs).  The `NotInitialized` guard is from the source;
the body behind it is `todo!()` there.  Modelled from the spec: a successful
run produces a `Meta`; its contents are irrelevant to the verified claims,
so the default value stands in. -/
def run (s : Sandbox) : Except Error Meta :=
  if !s.initialized then .error .NotInitialized
  else .ok {}

/-- `Sandbox::cleanup` (lib.rs).  The `NotInitialized` guard is from the
source; the body behind it is `todo!()` there.  Modelled from the spec:
cleanup removes the sandbox directory and leaves the sandbox no longer
initialized (calling cleanup twice fails with `NotInitialized`). -/
def cleanup (s : Sandbox) : Except Error Sandbox :=
  if !s.initialized then .error .NotInitialized
  else .ok { s with initialized := false }

end Lib

/-- `Status` (execution_result.rs): a closed four-way classification of one
execution's outcome.  `RuntimeError` is the `Default`. -/
inductive Status where
  | RuntimeError : Status
  | SignalError : Status
  | Timeout : Status
  | InternalError : Status
deriving DecidableEq

/-- `impl Display for Status` (execution_result.rs): the two-letter wire form. -/
def Status.toWire : Status → String
  | .RuntimeError => "RE"
  | .SignalError => "SG"
  | .Timeout => "TO"
  | .InternalError => "XX"

/-- `impl From<&str> for Status` (execution_result.rs): parsing a wire code;
anything other than the four canonical codes falls through to `RuntimeError`. -/
def Status.fromWire (s : String) : Status :=
  match s with
  | "RE" => .RuntimeError
  | "SG" => .SignalError
  | "TO" => .Timeout
  | "XX" => .InternalError
  | _ => .RuntimeError

/-- `ExecutionResult` (execution_result.rs).  The fractional `cpu_time_ms` and
`wall_time_ms` fields are floating point and are not modelled; no embedded
operation reads any `ExecutionResult` field. -/
structure ExecutionResult where
  cgroup_memory_kb : Nat := 0
  context_switches_forced : Nat := 0
  context_switches_voluntary : Nat := 0
  exit_code : Int := 0
  killed_by_oom : Bool := false
  peak_memory_kb : Nat := 0
  stderr : String := ""
  stdout : String := ""
  status : Status := .RuntimeError
  status_message : String := ""
  terminated_by_sandbox : Bool := false
  termination_signal : Int := 0
deriving DecidableEq

namespace Modular

/-- `CgroupConfig` (config.rs), with the defaults of its `Default` impl. -/
structure CgroupConfig where
  cpu_cores : Option String := none
  memory_limit : Option Nat := none
  memory_nodes : Option String := none
  root : String := "auto:/run/isolate/cgroup"
deriving DecidableEq

/-- `Config` as consumed by `Sandbox::new` (sandbox.rs): identity overrides,
sandbox id, cgroup configuration and the `verbose` / `wait` flags.  The
remaining limit, I/O and behaviour fields of `Config` are never read by the
embedded operations and are not modelled.  (The `config.rs` in the tree is an
older iteration naming the id field `box_id`; `sandbox.rs` and its tests use
`sandbox_id`, which is followed here.) -/
structure Config where
  as_gid : Option Nat := none
  as_uid : Option Nat := none
  sandbox_id : Option Nat := some 0
  cgroup : Option CgroupConfig := none
  verbose : Bool := false
  wait : Bool := false
deriving DecidableEq

/-- `Environment` (environment.rs), with the defaults of its `Default` impl. -/
structure Environment where
  first_sandbox_gid : Nat := 60000
  first_sandbox_uid : Nat := 60000
  lock_root : String := "/run/isolate/locks"
  num_sandboxes : Nat := 1000
  restrict_initialization : Bool := false
  sandbox_root : String := "/var/local/lib/isolate"
deriving DecidableEq

/-- `Credentials` (sandbox.rs). -/
structure Credentials where
  gid : Nat
  id : Nat
  original_gid : Nat
  original_uid : Nat
  uid : Nat
deriving DecidableEq

/-- `Sandbox` (sandbox.rs). -/
structure Sandbox where
  cgroup : Option CgroupConfig
  credentials : Credentials
  directory : String
  initialized : Bool
  lock_root : String
  sandbox_root : String
  verbose : Bool
  wait : Bool
deriving DecidableEq

/-- `Sandbox::new` (sandbox.rs), in state-passing form: the second component
is the system snapshot after the call.  The `config.credentials(system)` call
resolves via `resolveCredentials` (see there: the method body is absent from
the tree; the tests in sandbox.rs pin its behaviour). -/
def newState (config : Config) (environment : Environment) (sys : SysState) :
    Except Error Sandbox × SysState :=
  if sys.euid ≠ 0 then (.error .NotRoot, sys)
  else
    match switchEgid sys with
    | .error e => (.error e, sys)
    | .ok sys1 =>
      let id := config.sandbox_id.getD 0
      if environment.num_sandboxes ≤ id then
        (.error (.Config ("sandbox id out of range (allowed: 0-" ++
          toString (u32sub environment.num_sandboxes 1) ++ ")")), sys1)
      else if environment.restrict_initialization ∧ sys1.uid ≠ 0 then
        (.error (.Permission "you must be root to initialize the sandbox"), sys1)
      else
        match resolveCredentials config.as_uid config.as_gid sys1.uid sys1.gid with
        | .error e => (.error e, sys1)
        | .ok (original_uid, original_gid) =>
          let sys2 := { sys1 with umask := 0o022 }
          (.ok {
            cgroup := config.cgroup
            credentials := {
              gid := u32add environment.first_sandbox_gid id
              id := id
              original_gid := original_gid
              original_uid := original_uid
              uid := u32add environment.first_sandbox_uid id }
            directory := pathJoin environment.sandbox_root (toString id)
            initialized := true
            lock_root := environment.lock_root
            sandbox_root := environment.sandbox_root
            verbose := config.verbose
            wait := config.wait }, sys2)

/-- `Sandbox::new` (sandbox.rs), result component only. -/
def new (config : Config) (environment : Environment) (sys : SysState) :
    Except Error Sandbox :=
  (newState config environment sys).1

/-- `Sandbox::execute` (sandbox.rs).  The `NotInitialized` guard is from the
source; the body behind it is `todo!()` there.  Modelled from the spec: a
successful execution produces an `ExecutionResult`; its contents are
irrelevant to the verified claims, so the default value stands in. -/
def execute (s : Sandbox) : Except Error ExecutionResult :=
  if !s.initialized then .error .NotInitialized
  else .ok {}

/-- `Sandbox::cleanup` (sandbox.rs).  The `NotInitialized` guard is from the
source; the body behind it is `todo!()` there.  Modelled from the spec:
cleanup removes the sandbox directory and leaves the sandbox no longer
initialized (calling cleanup twice fails with `NotInitialized`). -/
def cleanup (s : Sandbox) : Except Error Sandbox :=
  if !s.initialized then .error .NotInitialized
  else .ok { s with initialized := false }

end Modular

/-- `MountOptions` (mount.rs), with the defaults of its `Default` impl. -/
structure MountOptions where
  allow_devices : Bool := false
  filesystem : Option String := none
  no_exec : Bool := false
  no_recursive : Bool := false
  optional : Bool := false
  read_write : Bool := false
  temporary : Bool := false
deriving DecidableEq

/-- `Mount` (mount.rs): a mount declaration for the sandboxed filesystem view. -/
structure Mount where
  inside_path : String
  outside_path : Option String := none
  options : MountOptions := {}
deriving DecidableEq

/-- `Mount::new` (mount.rs): validates the temporary-mount contract and
normalizes `temporary ⇒ read_write`. -/
def Mount.new (inside_path : String) (outside_path : Option String)
    (options : MountOptions) : Except Error Mount :=
  if options.temporary ∧ outside_path.isSome then
    .error (.Mount "temporary directory cannot have an outside path")
  else
    let read_write := if options.temporary then true else options.read_write
    .ok {
      inside_path := inside_path
      outside_path := outside_path
      options := { options with read_write := read_write } }

/-- `Mount::device` (mount.rs). -/
def Mount.device (inside_path : String) (outside_path : Option String) :
    Except Error Mount :=
  Mount.new inside_path outside_path { allow_devices := true }

/-- `Mount::filesystem` (mount.rs). -/
def Mount.filesystem (inside_path : String) (fs_type : String) :
    Except Error Mount :=
  Mount.new inside_path none { filesystem := some fs_type }

/-- `Mount::optional` (mount.rs). -/
def Mount.optional (inside_path : String) (outside_path : Option String) :
    Except Error Mount :=
  Mount.new inside_path outside_path { optional := true }

/-- `Mount::read_only` (mount.rs). -/
def Mount.read_only (inside_path : String) (outside_path : Option String) :
    Except Error Mount :=
  Mount.new inside_path outside_path {}

/-- `Mount::read_write` (mount.rs). -/
def Mount.read_write (inside_path : String) (outside_path : Option String) :
    Except Error Mount :=
  Mount.new inside_path outside_path { read_write := true }

/-- `Mount::temporary` (mount.rs). -/
def Mount.temporary (inside_path : String) : Except Error Mount :=
  Mount.new inside_path none { temporary := true, read_write := true }

/-- `DirOptions` (dir_rule.rs), with the defaults of its `Default` impl. -/
structure DirOptions where
  allow_devices : Bool := false
  filesystem : Option String := none
  maybe : Bool := false
  no_exec : Bool := false
  no_recursive : Bool := false
  read_write : Bool := false
  temporary : Bool := false
deriving DecidableEq

/-- `DirRule` (dir_rule.rs). -/
structure DirRule where
  inside_path : String
  outside_path : Option String := none
  options : DirOptions := {}
deriving DecidableEq

/-- `DirRule::new` (dir_rule.rs): same temporary-mount contract as
`Mount::new`, with the error reported as a `DirRule` error. -/
def DirRule.new (inside_path : String) (outside_path : Option String)
    (options : DirOptions) : Except Error DirRule :=
  if options.temporary ∧ outside_path.isSome then
    .error (.DirRule "temporary directory cannot have an outside path")
  else
    let read_write := if options.temporary then true else options.read_write
    .ok {
      inside_path := inside_path
      outside_path := outside_path
      options := { options with read_write := read_write } }

/-- `ExecutionContext::default_mounts` (execution_context.rs): the default
declaration sequence `box, bin, dev, lib, lib64, proc, tmp, usr`. -/
def default_mounts : Except Error (List Mount) := do
  let box ← Mount.read_write "box" (some "./box")
  let bin ← Mount.read_only "bin" none
  let dev ← Mount.device "dev" none
  let lib ← Mount.read_only "lib" none
  let lib64 ← Mount.optional "lib64" none
  let proc ← Mount.filesystem "proc" "proc"
  let tmp ← Mount.temporary "tmp"
  let usr ← Mount.read_only "usr" none
  pure [box, bin, dev, lib, lib64, proc, tmp, usr]

/-- `ExecutionContext::mount` (execution_context.rs): declaring a mount
appends it to the ordered declaration list. -/
def declareMount (mounts : List Mount) (mount : Mount) : List Mount :=
  mounts ++ [mount]

/-- Modelled from the spec: one step of the mount resolution engine.  The
code that resolves the declaration list into the final bind-mount plan is
part of `Sandbox::execute`, which is unimplemented (`todo!()`) in the tree;
the doc comment on `ExecutionContext::default_mounts` and §4.2 of the design
specify it: a declaration whose inside-path already occurs in the plan
replaces that entry's options and source but keeps the entry's position;
otherwise the declaration is appended. -/
def upsertMount (plan : List Mount) (m : Mount) : List Mount :=
  if plan.any (fun e => e.inside_path = m.inside_path) then
    plan.map (fun e => if e.inside_path = m.inside_path then m else e)
  else
    plan ++ [m]

/-- Modelled from the spec: the mount resolution engine (see `upsertMount`),
iterating the ordered declaration list into the final plan. -/
def resolveMounts (decls : List Mount) : List Mount :=
  decls.foldl upsertMount []

/-- Keep the first occurrence of each element: the accumulator step for the
first-occurrence ordering of inside-paths in a resolved plan. -/
def keepFirst (acc : List String) (p : String) : List String :=
  if p ∈ acc then acc else acc ++ [p]

/-- The first-occurrence deduplication of a list of inside-paths. -/
def dedupKeepFirst (ps : List String) : List String :=
  ps.foldl keepFirst []

/-- Concrete root-invoker snapshot used to exercise the theorems (mirrors the
`MockSystem` of the unit tests with all ids 0 and no `setegid` failure). -/
def sysRoot : SysState :=
  { euid := 0, egid := 0, uid := 0, gid := 0, setegidError := none, umask := 18 }

/-- The environment of unit test `new_sandbox_box_dir_setup` (end-to-end
scenario A). -/
def envScenarioA : Modular.Environment :=
  { first_sandbox_gid := 20000, first_sandbox_uid := 10000,
    num_sandboxes := 10, sandbox_root := "/tmp/isolate_test" }

/-- The configuration of unit test `new_sandbox_box_dir_setup` (sandbox id 5). -/
def cfgScenarioA : Modular.Config :=
  { sandbox_id := some 5 }

/-- The sandbox produced by scenario A's construction. -/
def sandboxScenarioA : Modular.Sandbox :=
  { cgroup := none
    credentials :=
      { gid := 20005, id := 5, original_gid := 0, original_uid := 0,
        uid := 10005 }
    directory := "/tmp/isolate_test/5"
    initialized := true
    lock_root := "/run/isolate/locks"
    sandbox_root := "/tmp/isolate_test"
    verbose := false
    wait := false }

/-- The sandbox produced by the flat construction on the default
configuration under the root snapshot. -/
def sandboxFresh : Lib.Sandbox :=
  { box_dir := "/var/local/lib/isolate/0"
    box_gid := 60000
    box_id := 0
    box_uid := 60000
    config := {}
    initialized := false
    original_gid := 0
    original_uid := 0 }

/-!  ## Theorems  -/

/-- C1: Credential resolution satisfies all four cases of its contract: both
override fields present with nonzero real uid fails with the Permission
error; both absent returns the real uid/gid unchanged; exactly one present
fails with the Configuration error; both present under real uid 0 returns the
overrides verbatim.  (It is a plain function of the override pair and the
snapshot's real ids, so it has no side effects by construction.) -/
theorem credential_resolution_contract (as_uid as_gid : Option Nat)
    (ruid rgid : Nat) :
    (as_uid.isSome = true → as_gid.isSome = true → ruid ≠ 0 →
      resolveCredentials as_uid as_gid ruid rgid =
        .error (.Permission "you must be root to use `as_uid` or `as_gid`"))
    ∧ (as_uid = none → as_gid = none →
      resolveCredentials as_uid as_gid ruid rgid = .ok (ruid, rgid))
    ∧ (as_uid.isSome ≠ as_gid.isSome →
      resolveCredentials as_uid as_gid ruid rgid =
        .error (.Config "`as_uid` and `as_gid` must be used either both or none"))
    ∧ (∀ u g, as_uid = some u → as_gid = some g → ruid = 0 →
      resolveCredentials as_uid as_gid ruid rgid = .ok (u, g)) := by
  refine ⟨?_, ?_, ?_, ?_⟩
  · intro hu hg hr
    rcases as_uid with _ | u
    · simp at hu
    rcases as_gid with _ | g
    · simp at hg
    simp [resolveCredentials, hr]
  · intro hu hg
    subst hu; subst hg
    simp [resolveCredentials]
  · intro hne
    rcases as_uid with _ | u <;> rcases as_gid with _ | g <;>
      simp_all [resolveCredentials]
  · intro u g hu hg hr
    subst hu; subst hg
    simp [resolveCredentials, hr]

/-- Witness for `credential_resolution_contract`: the four contract cases at
concrete inputs. -/
theorem credential_resolution_contract_witness :
    resolveCredentials (some 2000) (some 2000) 1000 1000 =
      .error (.Permission "you must be root to use `as_uid` or `as_gid`")
    ∧ resolveCredentials none none 1000 500 = .ok (1000, 500)
    ∧ resolveCredentials (some 2000) none 0 0 =
      .error (.Config "`as_uid` and `as_gid` must be used either both or none")
    ∧ resolveCredentials (some 2000) (some 3000) 0 0 = .ok (2000, 3000) :=
  ⟨(credential_resolution_contract (some 2000) (some 2000) 1000 1000).1 rfl rfl
      (by decide),
   (credential_resolution_contract none none 1000 500).2.1 rfl rfl,
   (credential_resolution_contract (some 2000) none 0 0).2.2.1 (by decide),
   (credential_resolution_contract (some 2000) (some 3000) 0 0).2.2.2 2000 3000
      rfl rfl rfl⟩

/-- C5: constructing a mount with `temporary` and a present outside-path
fails with the Mount error, and every successfully constructed temporary
mount stores `read_write = true` regardless of the caller-supplied value. -/
theorem mount_temporary_contract (inside : String) (outside : Option String)
    (opts : MountOptions) :
    (opts.temporary = true → outside.isSome = true →
      Mount.new inside outside opts =
        .error (.Mount "temporary directory cannot have an outside path"))
    ∧ (∀ m, Mount.new inside outside opts = .ok m →
        m.options.temporary = true → m.options.read_write = true) := by
  constructor
  · intro ht ho
    simp [Mount.new, ht, ho]
  · intro m hm htemp
    unfold Mount.new at hm
    split at hm
    · cases hm
    · cases hm
      simp at htemp
      simp [htemp]

/-- Witness for `mount_temporary_contract`: the failing construction and the
normalized temporary mount at concrete inputs. -/
theorem mount_temporary_contract_witness :
    Mount.new "/sandbox/path" (some "/host/path") { temporary := true } =
      .error (.Mount "temporary directory cannot have an outside path")
    ∧ ({ inside_path := "/sandbox/path",
         options := { temporary := true, read_write := true } } :
        Mount).options.read_write = true :=
  ⟨(mount_temporary_contract "/sandbox/path" (some "/host/path")
      { temporary := true }).1 rfl rfl,
   (mount_temporary_contract "/sandbox/path" none
      { temporary := true, read_write := false }).2
      { inside_path := "/sandbox/path",
        options := { temporary := true, read_write := true } }
      rfl rfl⟩

/-- C6: converting each of the four status values to its two-letter wire code
and parsing it back is the identity, and parsing any other string yields
`RuntimeError` rather than an error. -/
theorem status_wire_round_trip :
    (∀ s : Status, Status.fromWire (Status.toWire s) = s)
    ∧ (∀ code : String, code ≠ "RE" → code ≠ "SG" → code ≠ "TO" → code ≠ "XX" →
        Status.fromWire code = .RuntimeError) := by
  constructor
  · intro s
    cases s <;> rfl
  · intro code h1 h2 h3 h4
    unfold Status.fromWire
    split <;> simp_all

/-- Witness for `status_wire_round_trip`: the round trip at `Timeout` and an
unrecognized code. -/
theorem status_wire_round_trip_witness :
    Status.fromWire (Status.toWire .Timeout) = .Timeout
    ∧ Status.fromWire "invalid" = .RuntimeError :=
  ⟨status_wire_round_trip.1 .Timeout,
   status_wire_round_trip.2 "invalid" (by decide) (by decide) (by decide)
      (by decide)⟩

/-- Unchecked `u32` subtraction of 1 agrees with the mathematical value on
representable positive inputs. -/
theorem u32sub_one_eq (n : Nat) (h1 : 1 ≤ n) (h2 : n < 4294967296) :
    u32sub n 1 = n - 1 := by
  unfold u32sub
  have he : n + 4294967296 - 1 % 4294967296 = (n - 1) + 4294967296 := by omega
  rw [he, Nat.add_mod_right, Nat.mod_eq_of_lt (by omega)]

/-- Unchecked `u32` addition agrees with the mathematical sum when it does
not overflow. -/
theorem u32add_eq_of_lt {a b : Nat} (h : a + b < 4294967296) :
    u32add a b = a + b :=
  Nat.mod_eq_of_lt h

/-- When the effective gid is 0 or `setegid` does not fail, the fix-up step
succeeds, leaving the snapshot unchanged or with effective gid 0. -/
theorem switchEgid_ok_of {sys : SysState}
    (h : sys.egid = 0 ∨ sys.setegidError = none) :
    switchEgid sys = .ok sys ∨ switchEgid sys = .ok { sys with egid := 0 } := by
  unfold switchEgid
  by_cases hg : sys.egid ≠ 0
  · rcases h with h | h
    · exact absurd h hg
    · rw [if_pos hg, h]
      right
      rfl
  · rw [if_neg hg]
    left
    rfl

/-- A successful fix-up step produces either the unchanged snapshot or the
snapshot with effective gid 0. -/
theorem switchEgid_ok_shape {sys sys1 : SysState} (h : switchEgid sys = .ok sys1) :
    sys1 = sys ∨ sys1 = { sys with egid := 0 } := by
  unfold switchEgid at h
  split at h
  · split at h
    · cases h
    · cases h
      right
      rfl
  · cases h
    left
    rfl

/-- Inversion for successful modular construction: the derived fields of a
constructed sandbox (`Sandbox::new`, sandbox.rs). -/
theorem Modular.new_ok_inv {config : Modular.Config}
    {environment : Modular.Environment} {sys : SysState} {s : Modular.Sandbox}
    (h : Modular.new config environment sys = .ok s) :
    s.credentials.id = config.sandbox_id.getD 0
    ∧ s.credentials.id < environment.num_sandboxes
    ∧ s.credentials.uid = u32add environment.first_sandbox_uid s.credentials.id
    ∧ s.credentials.gid = u32add environment.first_sandbox_gid s.credentials.id
    ∧ s.directory = pathJoin environment.sandbox_root (toString s.credentials.id)
    ∧ s.initialized = true := by
  unfold Modular.new Modular.newState at h
  split at h
  · simp at h
  · generalize hsw : switchEgid sys = sw at h
    cases sw with
    | error e => simp at h
    | ok sys1 =>
      repeat' split at h
      all_goals dsimp only at h
      all_goals first
        | injection h
        | (by_cases hc : environment.num_sandboxes ≤ config.sandbox_id.getD 0 <;>
            simp [hc] at h <;>
            (subst h
             exact ⟨rfl, by dsimp only; omega, rfl, rfl, rfl, rfl⟩))

/-- Inversion for successful flat construction (`Sandbox::with_system`,
lib.rs): the sandbox starts uninitialized and its id is in range. -/
theorem Lib.withSystem_ok_inv {config : Lib.SandboxConfig} {sys : SysState}
    {s : Lib.Sandbox} (h : Lib.withSystem config sys = .ok s) :
    s.initialized = false
    ∧ s.box_id = config.security.box_id.getD 0
    ∧ s.box_id < config.environment.num_boxes := by
  unfold Lib.withSystem Lib.withSystemState at h
  split at h
  · simp at h
  · generalize hsw : switchEgid sys = sw at h
    cases sw with
    | error e => simp at h
    | ok sys1 =>
      repeat' split at h
      all_goals dsimp only at h
      all_goals first
        | injection h
        | (by_cases hc :
              config.environment.num_boxes ≤ config.security.box_id.getD 0 <;>
            simp [hc] at h <;>
            (subst h
             exact ⟨rfl, rfl, by dsimp only; omega⟩))

/-- C3: on a freshly constructed sandbox (`initialize` not yet run), `run`
and `cleanup` fail with `NotInitialized`; after a first successful
`initialize`, a second `initialize` fails with `AlreadyInitialized`. -/
theorem lifecycle_misuse_rejected :
    (∀ (config : Lib.SandboxConfig) (sys : SysState) (s : Lib.Sandbox),
      Lib.withSystem config sys = .ok s →
        Lib.run s = .error .NotInitialized
        ∧ Lib.cleanup s = .error .NotInitialized)
    ∧ (∀ s s1 : Lib.Sandbox, Lib.init s = .ok s1 →
        Lib.init s1 = .error .AlreadyInitialized) := by
  constructor
  · intro config sys s h
    have hinit := (Lib.withSystem_ok_inv h).1
    constructor
    · unfold Lib.run
      rw [hinit]
      rfl
    · unfold Lib.cleanup
      rw [hinit]
      rfl
  · intro s s1 h
    unfold Lib.init at h
    split at h
    · cases h
    · cases h
      unfold Lib.init
      rfl

/-- Witness for `lifecycle_misuse_rejected`: the guards at the concrete
freshly constructed sandbox. -/
theorem lifecycle_misuse_rejected_witness :
    Lib.run sandboxFresh = .error .NotInitialized
    ∧ Lib.cleanup sandboxFresh = .error .NotInitialized
    ∧ Lib.init { sandboxFresh with initialized := true } =
        .error .AlreadyInitialized :=
  ⟨(lifecycle_misuse_rejected.1 {} sysRoot sandboxFresh rfl).1,
   (lifecycle_misuse_rejected.1 {} sysRoot sandboxFresh rfl).2,
   lifecycle_misuse_rejected.2 sandboxFresh
     { sandboxFresh with initialized := true } rfl⟩

/-- C4: under a root effective uid and a successful effective-gid fix-up, a
sandbox id at or beyond `num_sandboxes` makes construction fail with the
Configuration error naming the valid range `0..num_sandboxes-1`; every
successfully constructed sandbox has `id < num_sandboxes`, and the lifecycle
operations leave the id unchanged. -/
theorem sandbox_id_range_contract :
    (∀ (config : Modular.Config) (environment : Modular.Environment)
        (sys : SysState),
      sys.euid = 0 → (sys.egid = 0 ∨ sys.setegidError = none) →
      1 ≤ environment.num_sandboxes →
      environment.num_sandboxes < 4294967296 →
      environment.num_sandboxes ≤ config.sandbox_id.getD 0 →
      Modular.new config environment sys =
        .error (.Config ("sandbox id out of range (allowed: 0-" ++
          toString (environment.num_sandboxes - 1) ++ ")")))
    ∧ (∀ (config : Modular.Config) (environment : Modular.Environment)
        (sys : SysState) (s : Modular.Sandbox),
        Modular.new config environment sys = .ok s →
          s.credentials.id < environment.num_sandboxes)
    ∧ (∀ s s1 : Modular.Sandbox, Modular.cleanup s = .ok s1 →
        s1.credentials.id = s.credentials.id)
    ∧ (∀ s s1 : Lib.Sandbox, Lib.init s = .ok s1 → s1.box_id = s.box_id)
    ∧ (∀ s s1 : Lib.Sandbox, Lib.cleanup s = .ok s1 → s1.box_id = s.box_id) := by
  refine ⟨?_, ?_, ?_, ?_, ?_⟩
  · intro config environment sys heuid hegid h1 h2 hid
    obtain hsw | hsw := switchEgid_ok_of hegid <;>
      (unfold Modular.new Modular.newState
       rw [if_neg (by omega : ¬sys.euid ≠ 0), hsw]
       dsimp only
       rw [if_pos hid]
       dsimp only
       rw [u32sub_one_eq environment.num_sandboxes h1 h2])
  · intro config environment sys s h
    exact (Modular.new_ok_inv h).2.1
  · intro s s1 h
    unfold Modular.cleanup at h
    split at h
    · cases h
    · cases h
      rfl
  · intro s s1 h
    unfold Lib.init at h
    split at h
    · cases h
    · cases h
      rfl
  · intro s s1 h
    unfold Lib.cleanup at h
    split at h
    · cases h
    · cases h
      rfl

/-- Witness for `sandbox_id_range_contract`: all five parts at concrete
inputs (id 10 against capacity 10, scenario A's successful construction, and
the lifecycle operations on concrete sandboxes). -/
theorem sandbox_id_range_contract_witness :
    Modular.new { sandbox_id := some 10 } { num_sandboxes := 10 } sysRoot =
      .error (.Config ("sandbox id out of range (allowed: 0-" ++
        toString (10 - 1) ++ ")"))
    ∧ sandboxScenarioA.credentials.id < 10
    ∧ ({ sandboxScenarioA with initialized := false } :
        Modular.Sandbox).credentials.id = sandboxScenarioA.credentials.id
    ∧ ({ sandboxFresh with initialized := true } : Lib.Sandbox).box_id =
        sandboxFresh.box_id
    ∧ sandboxFresh.box_id =
        ({ sandboxFresh with initialized := true } : Lib.Sandbox).box_id :=
  ⟨sandbox_id_range_contract.1 { sandbox_id := some 10 }
      { num_sandboxes := 10 } sysRoot rfl (Or.inl rfl) (by decide) (by decide)
      (by decide),
   sandbox_id_range_contract.2.1 cfgScenarioA envScenarioA sysRoot
      sandboxScenarioA rfl,
   sandbox_id_range_contract.2.2.1 sandboxScenarioA
      { sandboxScenarioA with initialized := false } rfl,
   sandbox_id_range_contract.2.2.2.1 sandboxFresh
      { sandboxFresh with initialized := true } rfl,
   sandbox_id_range_contract.2.2.2.2 { sandboxFresh with initialized := true }
      sandboxFresh rfl⟩

/-- C7: every successfully constructed sandbox has directory
`sandbox_root/<id>`, uid `first_sandbox_uid + id` and gid
`first_sandbox_gid + id` (as `u32` sums, equal to the mathematical sums when
they do not overflow); in scenario A (capacity 10, uid base 10000, gid base
20000, id 5) the directory is `/tmp/isolate_test/5`, the uid 10005 and the
gid 20005. -/
theorem sandbox_derived_values :
    (∀ (config : Modular.Config) (environment : Modular.Environment)
        (sys : SysState) (s : Modular.Sandbox),
      Modular.new config environment sys = .ok s →
        s.directory = pathJoin environment.sandbox_root (toString s.credentials.id)
        ∧ s.credentials.id = config.sandbox_id.getD 0
        ∧ s.credentials.uid = u32add environment.first_sandbox_uid s.credentials.id
        ∧ s.credentials.gid = u32add environment.first_sandbox_gid s.credentials.id
        ∧ (environment.first_sandbox_uid + s.credentials.id < 4294967296 →
            s.credentials.uid = environment.first_sandbox_uid + s.credentials.id)
        ∧ (environment.first_sandbox_gid + s.credentials.id < 4294967296 →
            s.credentials.gid = environment.first_sandbox_gid + s.credentials.id))
    ∧ Modular.new cfgScenarioA envScenarioA sysRoot = .ok sandboxScenarioA := by
  constructor
  · intro config environment sys s h
    obtain ⟨h1, _, h3, h4, h5, _⟩ := Modular.new_ok_inv h
    refine ⟨h5, h1, h3, h4, ?_, ?_⟩
    · intro hlt
      rw [h3, u32add_eq_of_lt hlt]
    · intro hlt
      rw [h4, u32add_eq_of_lt hlt]
  · rfl

/-- Witness for `sandbox_derived_values`: the derived-value equations at
scenario A's constructed sandbox. -/
theorem sandbox_derived_values_witness :
    sandboxScenarioA.directory =
      pathJoin envScenarioA.sandbox_root (toString sandboxScenarioA.credentials.id)
    ∧ sandboxScenarioA.credentials.uid =
        envScenarioA.first_sandbox_uid + sandboxScenarioA.credentials.id
    ∧ sandboxScenarioA.credentials.gid =
        envScenarioA.first_sandbox_gid + sandboxScenarioA.credentials.id :=
  ⟨(sandbox_derived_values.1 cfgScenarioA envScenarioA sysRoot sandboxScenarioA
      rfl).1,
   (sandbox_derived_values.1 cfgScenarioA envScenarioA sysRoot sandboxScenarioA
      rfl).2.2.2.2.1 (by decide),
   (sandbox_derived_values.1 cfgScenarioA envScenarioA sysRoot sandboxScenarioA
      rfl).2.2.2.2.2 (by decide)⟩

/-- C8: with `restrict_initialization` set and a non-root invoking real uid,
the initialization step (performed by `Sandbox::new`, which constructs the
sandbox already initialized in this iteration) fails with the Permission
error "you must be root to initialize the sandbox" — given the root
effective uid required of every construction, a successful effective-gid
fix-up, and an in-range id (that check precedes the restriction check). -/
theorem restricted_init_requires_root_uid (config : Modular.Config)
    (environment : Modular.Environment) (sys : SysState) :
    sys.euid = 0 → (sys.egid = 0 ∨ sys.setegidError = none) →
    config.sandbox_id.getD 0 < environment.num_sandboxes →
    environment.restrict_initialization = true → sys.uid ≠ 0 →
    Modular.new config environment sys =
      .error (.Permission "you must be root to initialize the sandbox") := by
  intro heuid hegid hid hrestrict huid
  obtain hsw | hsw := switchEgid_ok_of hegid <;>
    (unfold Modular.new Modular.newState
     rw [if_neg (by omega : ¬sys.euid ≠ 0), hsw]
     dsimp only
     rw [if_neg (by omega : ¬environment.num_sandboxes ≤ config.sandbox_id.getD 0)]
     rw [if_pos (⟨hrestrict, huid⟩ :
       environment.restrict_initialization = true ∧ _ ≠ 0)])

/-- Witness for `restricted_init_requires_root_uid`: scenario B — capacity
10, restricted initialization, invoking real uid 1000. -/
theorem restricted_init_requires_root_uid_witness :
    Modular.new { sandbox_id := some 0 }
      { num_sandboxes := 10, restrict_initialization := true }
      { euid := 0, egid := 0, uid := 1000, gid := 0, setegidError := none,
        umask := 18 } =
      .error (.Permission "you must be root to initialize the sandbox") :=
  restricted_init_requires_root_uid { sandbox_id := some 0 }
    { num_sandboxes := 10, restrict_initialization := true }
    { euid := 0, egid := 0, uid := 1000, gid := 0, setegidError := none,
      umask := 18 }
    rfl (Or.inl rfl) (by decide) rfl (by decide)

/-- C9 counterexample: a failed construction is not free of leftover process
state — with effective gid 1000, the effective-gid switch to 0 performed
before the credential validation failure remains in effect after the error
is returned. -/
theorem construction_failure_not_stateless :
    (Modular.newState { as_uid := some 2000 } {}
      { euid := 0, egid := 1000, uid := 0, gid := 0, setegidError := none,
        umask := 18 }).1 =
      .error (.Config "`as_uid` and `as_gid` must be used either both or none")
    ∧ (Modular.newState { as_uid := some 2000 } {}
        { euid := 0, egid := 1000, uid := 0, gid := 0, setegidError := none,
          umask := 18 }).2 ≠
      { euid := 0, egid := 1000, uid := 0, gid := 0, setegidError := none,
        umask := 18 } :=
  ⟨rfl, by decide⟩

/-- C9 (amended): every construction failure is returned synchronously,
before any filesystem action and with no partial sandbox returned, but
process state mutated before the failing check is left in effect.  A failed
modular construction (`Sandbox::new`, sandbox.rs, whose umask call follows
all validations) leaves at most the effective-gid switch to 0 and never
changes the umask; a failed flat construction (`Sandbox::with_system`,
lib.rs, whose umask call precedes the id-range check) can additionally
leave the file-creation mask set to 0o022 — as the concrete id-range
failure shows, where the mask goes from 0 to 0o022. -/
theorem construction_failure_state_contract :
    (∀ (config : Modular.Config) (environment : Modular.Environment)
        (sys : SysState) (e : Error),
      (Modular.newState config environment sys).1 = .error e →
        ((Modular.newState config environment sys).2 = sys ∨
         (Modular.newState config environment sys).2 = { sys with egid := 0 })
        ∧ (Modular.newState config environment sys).2.umask = sys.umask)
    ∧ (∀ (config : Lib.SandboxConfig) (sys : SysState) (e : Error),
      (Lib.withSystemState config sys).1 = .error e →
        (Lib.withSystemState config sys).2 = sys ∨
        (Lib.withSystemState config sys).2 = { sys with egid := 0 } ∨
        (Lib.withSystemState config sys).2 = { sys with umask := 18 } ∨
        (Lib.withSystemState config sys).2 = { sys with egid := 0, umask := 18 })
    ∧ ((Lib.withSystemState { security := { box_id := some 1000 } }
          { euid := 0, egid := 0, uid := 0, gid := 0, setegidError := none,
            umask := 0 }).1 =
        .error (.Config ("sandbox id out of range (allowed: 0-" ++
          toString (u32sub 1000 1) ++ ")"))
      ∧ (Lib.withSystemState { security := { box_id := some 1000 } }
          { euid := 0, egid := 0, uid := 0, gid := 0, setegidError := none,
            umask := 0 }).2.umask = 18) := by
  refine ⟨?_, ?_, rfl, rfl⟩
  · intro config environment sys e h
    by_cases h1 : sys.euid ≠ 0
    · unfold Modular.newState
      rw [if_pos h1]
      exact ⟨Or.inl rfl, rfl⟩
    · rcases hsw : switchEgid sys with e1 | sys1
      · unfold Modular.newState
        rw [if_neg h1, hsw]
        exact ⟨Or.inl rfl, rfl⟩
      · have hshape := switchEgid_ok_shape hsw
        have humask : sys1.umask = sys.umask := by
          rcases hshape with h2 | h2 <;> rw [h2]
        unfold Modular.newState at h ⊢
        rw [if_neg h1, hsw] at h ⊢
        dsimp only at h ⊢
        by_cases h2 : environment.num_sandboxes ≤ config.sandbox_id.getD 0
        · rw [if_pos h2]
          exact ⟨hshape, humask⟩
        · rw [if_neg h2] at h ⊢
          by_cases h3 :
              environment.restrict_initialization = true ∧ sys1.uid ≠ 0
          · rw [if_pos h3]
            exact ⟨hshape, humask⟩
          · rw [if_neg h3] at h ⊢
            generalize hrc : resolveCredentials config.as_uid config.as_gid
              sys1.uid sys1.gid = rc at h ⊢
            cases rc with
            | error e2 => exact ⟨hshape, humask⟩
            | ok p =>
              obtain ⟨ouid, ogid⟩ := p
              dsimp only at h
              cases h
  · intro config sys e h
    by_cases h1 : sys.euid ≠ 0
    · unfold Lib.withSystemState
      rw [if_pos h1]
      exact Or.inl rfl
    · rcases hsw : switchEgid sys with e1 | sys1
      · unfold Lib.withSystemState
        rw [if_neg h1, hsw]
        exact Or.inl rfl
      · have hshape := switchEgid_ok_shape hsw
        unfold Lib.withSystemState at h ⊢
        rw [if_neg h1, hsw] at h ⊢
        dsimp only at h ⊢
        generalize hrc : resolveCredentials config.security.as_uid
          config.security.as_gid sys1.uid sys1.gid = rc at h ⊢
        cases rc with
        | error e2 =>
          rcases hshape with h2 | h2
          · exact Or.inl (by rw [h2])
          · exact Or.inr (Or.inl (by rw [h2]))
        | ok p =>
          obtain ⟨ouid, ogid⟩ := p
          dsimp only at h ⊢
          by_cases h2 :
              config.environment.num_boxes ≤ config.security.box_id.getD 0
          · rw [if_pos h2]
            rcases hshape with h3 | h3
            · exact Or.inr (Or.inr (Or.inl (by rw [h3])))
            · exact Or.inr (Or.inr (Or.inr (by rw [h3])))
          · rw [if_neg h2] at h
            dsimp only at h
            cases h

/-- Witness for `construction_failure_state_contract`: the failed modular
construction of the counterexample input leaves at most the effective-gid
switch and keeps the umask, and a failed flat construction lands in one of
the four allowed states. -/
theorem construction_failure_state_contract_witness :
    (((Modular.newState { as_uid := some 2000 } {}
        { euid := 0, egid := 1000, uid := 0, gid := 0, setegidError := none,
          umask := 18 }).2 =
        { euid := 0, egid := 1000, uid := 0, gid := 0, setegidError := none,
          umask := 18 } ∨
      (Modular.newState { as_uid := some 2000 } {}
        { euid := 0, egid := 1000, uid := 0, gid := 0, setegidError := none,
          umask := 18 }).2 =
        { euid := 0, egid := 0, uid := 0, gid := 0, setegidError := none,
          umask := 18 })
     ∧ (Modular.newState { as_uid := some 2000 } {}
        { euid := 0, egid := 1000, uid := 0, gid := 0, setegidError := none,
          umask := 18 }).2.umask = 18)
    ∧ ((Lib.withSystemState { security := { box_id := some 1000 } }
          { euid := 0, egid := 0, uid := 0, gid := 0, setegidError := none,
            umask := 0 }).2 =
          { euid := 0, egid := 0, uid := 0, gid := 0, setegidError := none,
            umask := 0 } ∨
        (Lib.withSystemState { security := { box_id := some 1000 } }
          { euid := 0, egid := 0, uid := 0, gid := 0, setegidError := none,
            umask := 0 }).2 =
          { euid := 0, egid := 0, uid := 0, gid := 0, setegidError := none,
            umask := 0 } ∨
        (Lib.withSystemState { security := { box_id := some 1000 } }
          { euid := 0, egid := 0, uid := 0, gid := 0, setegidError := none,
            umask := 0 }).2 =
          { euid := 0, egid := 0, uid := 0, gid := 0, setegidError := none,
            umask := 18 } ∨
        (Lib.withSystemState { security := { box_id := some 1000 } }
          { euid := 0, egid := 0, uid := 0, gid := 0, setegidError := none,
            umask := 0 }).2 =
          { euid := 0, egid := 0, uid := 0, gid := 0, setegidError := none,
            umask := 18 }) :=
  ⟨construction_failure_state_contract.1 { as_uid := some 2000 } {}
      { euid := 0, egid := 1000, uid := 0, gid := 0, setegidError := none,
        umask := 18 }
      (.Config "`as_uid` and `as_gid` must be used either both or none") rfl,
   construction_failure_state_contract.2.1 { security := { box_id := some 1000 } }
      { euid := 0, egid := 0, uid := 0, gid := 0, setegidError := none,
        umask := 0 }
      (.Config ("sandbox id out of range (allowed: 0-" ++
        toString (u32sub 1000 1) ++ ")")) rfl⟩

/-- C10: with `num_sandboxes = 0` the range check always fails and the error
formatting computes the unchecked `u32` subtraction `0 - 1`, which
underflows: under the release-build wraparound embedded here the message
reports the bound 4294967295 instead of a valid range (debug builds panic on
the subtraction at this input). -/
theorem zero_capacity_underflow :
    Modular.new {} { num_sandboxes := 0 } sysRoot =
      .error (.Config "sandbox id out of range (allowed: 0-4294967295)")
    ∧ u32sub 0 1 = 4294967295 :=
  ⟨rfl, rfl⟩

/-- A plan contains an entry with a given inside-path exactly when its
inside-path listing does. -/
theorem mem_map_inside {plan : List Mount} {p : String} :
    plan.any (fun e => e.inside_path = p) = true ↔
      p ∈ plan.map Mount.inside_path := by
  simp [List.any_eq_true]

/-- One resolution step acts on the inside-path listing as `keepFirst`:
a replacement leaves the listing unchanged, an append adds the new path. -/
theorem upsertMount_map_inside (plan : List Mount) (m : Mount) :
    (upsertMount plan m).map Mount.inside_path =
      keepFirst (plan.map Mount.inside_path) m.inside_path := by
  unfold upsertMount keepFirst
  by_cases hany : plan.any (fun e => e.inside_path = m.inside_path) = true
  · rw [if_pos hany, if_pos (mem_map_inside.mp hany), List.map_map]
    apply List.map_congr_left
    intro e he
    by_cases hh : e.inside_path = m.inside_path <;> simp [hh]
  · rw [if_neg hany, if_neg (fun hm => hany (mem_map_inside.mpr hm)),
      List.map_append]
    rfl

/-- Folding resolution steps acts on the inside-path listing as folding
`keepFirst`. -/
theorem foldl_upsertMount_map_inside (ds : List Mount) (plan : List Mount) :
    (ds.foldl upsertMount plan).map Mount.inside_path =
      (ds.map Mount.inside_path).foldl keepFirst (plan.map Mount.inside_path) := by
  induction ds generalizing plan with
  | nil => rfl
  | cons d ds ih =>
    simp only [List.foldl_cons, List.map_cons]
    rw [ih, upsertMount_map_inside]

/-- The resolved plan lists inside-paths in first-occurrence order of the
declarations. -/
theorem resolveMounts_map_inside (ds : List Mount) :
    (resolveMounts ds).map Mount.inside_path =
      dedupKeepFirst (ds.map Mount.inside_path) :=
  foldl_upsertMount_map_inside ds []

/-- `keepFirst` preserves freedom from duplicates. -/
theorem keepFirst_nodup {acc : List String} (h : acc.Nodup) (p : String) :
    (keepFirst acc p).Nodup := by
  unfold keepFirst
  by_cases hp : p ∈ acc
  · rwa [if_pos hp]
  · rw [if_neg hp]
    simp [List.nodup_append, h, hp]

/-- Folding `keepFirst` preserves freedom from duplicates. -/
theorem foldl_keepFirst_nodup (ps : List String) (acc : List String)
    (h : acc.Nodup) : (ps.foldl keepFirst acc).Nodup := by
  induction ps generalizing acc with
  | nil => exact h
  | cons p ps ih => exact ih _ (keepFirst_nodup h p)

/-- First-occurrence deduplication produces a duplicate-free listing. -/
theorem dedupKeepFirst_nodup (ps : List String) : (dedupKeepFirst ps).Nodup :=
  foldl_keepFirst_nodup ps [] List.nodup_nil

/-- Membership after one resolution step: an entry is either the new
declaration or an untouched entry with a different inside-path. -/
theorem mem_upsertMount {plan : List Mount} {mq m : Mount}
    (h : mq ∈ upsertMount plan m) :
    mq = m ∨ (mq ∈ plan ∧ mq.inside_path ≠ m.inside_path) := by
  unfold upsertMount at h
  by_cases hany : plan.any (fun e => e.inside_path = m.inside_path) = true
  · rw [if_pos hany] at h
    rcases List.mem_map.mp h with ⟨e, he, hee⟩
    by_cases hh : e.inside_path = m.inside_path
    · rw [if_pos hh] at hee
      exact Or.inl hee.symm
    · rw [if_neg hh] at hee
      subst hee
      exact Or.inr ⟨he, hh⟩
  · rw [if_neg hany] at h
    rcases List.mem_append.mp h with h | h
    · refine Or.inr ⟨h, ?_⟩
      intro hEq
      exact hany
        (mem_map_inside.mpr (hEq ▸ List.mem_map_of_mem Mount.inside_path h))
    · simp at h
      exact Or.inl h

/-- Every entry of a resolved plan is the LAST declaration bearing its
inside-path: replacement installs the later declaration's options and
source. -/
theorem resolveMounts_find_last (ds : List Mount) :
    ∀ m ∈ resolveMounts ds,
      ds.reverse.find? (fun d => d.inside_path = m.inside_path) = some m := by
  induction ds using List.reverseRecOn with
  | nil =>
    intro m hm
    simp [resolveMounts] at hm
  | append_singleton ds d ih =>
    intro m hm
    unfold resolveMounts at hm
    rw [List.foldl_append] at hm
    simp only [List.foldl_cons, List.foldl_nil] at hm
    rw [List.reverse_append, List.reverse_singleton, List.singleton_append]
    rcases mem_upsertMount hm with h1 | ⟨h2, h3⟩
    · subst h1
      rw [List.find?_cons_of_pos _ (by simp)]
    · rw [List.find?_cons_of_neg _ (by simp [Ne.symm h3])]
      exact ih m h2

/-- C2: mount-plan resolution is order-stable under replacement — for every
declaration sequence the plan lists inside-paths without duplicates in
first-occurrence order, and each entry carries the last (most recent)
declaration for its path; in particular declaring `a`, then `a/b`, then `a`
again with new options yields a plan where `a` keeps its original position
with the new options and `a/b` stays after it. -/
theorem mount_plan_replacement_order_stable :
    (∀ ds : List Mount,
      (resolveMounts ds).map Mount.inside_path =
        dedupKeepFirst (ds.map Mount.inside_path)
      ∧ ((resolveMounts ds).map Mount.inside_path).Nodup
      ∧ ∀ m ∈ resolveMounts ds,
          ds.reverse.find? (fun d => d.inside_path = m.inside_path) = some m)
    ∧ resolveMounts
        [{ inside_path := "a" }, { inside_path := "a/b" },
         { inside_path := "a", options := { read_write := true } }] =
      [{ inside_path := "a", options := { read_write := true } },
       { inside_path := "a/b" }] := by
  constructor
  · intro ds
    refine ⟨resolveMounts_map_inside ds, ?_, resolveMounts_find_last ds⟩
    rw [resolveMounts_map_inside ds]
    exact dedupKeepFirst_nodup _
  · rfl

/-- Witness for `mount_plan_replacement_order_stable`: the replaced `a`
entry belongs to the resolved plan of the three-declaration sequence and is
found as the last `a` declaration. -/
theorem mount_plan_replacement_order_stable_witness :
    ({ inside_path := "a", options := { read_write := true } } : Mount) ∈
      resolveMounts
        [{ inside_path := "a" }, { inside_path := "a/b" },
         { inside_path := "a", options := { read_write := true } }]
    ∧ ([{ inside_path := "a" }, { inside_path := "a/b" },
        ({ inside_path := "a", options := { read_write := true } } : Mount)]).reverse.find?
        (fun d => d.inside_path =
          ({ inside_path := "a",
             options := { read_write := true } } : Mount).inside_path) =
      some { inside_path := "a", options := { read_write := true } } :=
  ⟨by decide,
   (mount_plan_replacement_order_stable.1 _).2.2 _ (by decide)⟩

end Isolate
